import Mathlib

/-!
Verification of the draw.io → VSDX converter
(`server/python/drawio_to_vsdx.py`) against its natural-language
specification.

The Python module is shallowly embedded as follows.

* An parsed XML document is an `XElem` tree (tag, attribute list,
  children).  `xml.etree.ElementTree` is an external library; its
  outcome is modelled as an `Except String XElem` fed to the converter:
  `.error msg` stands for `ET.fromstring` raising `ET.ParseError`,
  `.ok root` for a successful parse.  `findall(".//t")` and
  `find(".//t")` search all descendants (excluding the element itself)
  in document order; `find("t")` searches direct children only; `get`
  reads an attribute.
* Python `float(...)` applied to an attribute string is modelled by
  `parseFloat?` over `ℚ` (exact rational arithmetic in place of IEEE
  doubles; the numbers occurring in the claims are exactly
  representable and all comparisons carry tolerances far above double
  rounding error).  `parseFloat?` accepts plain signed decimal
  literals, the only shapes the module's defaults and the claims
  exercise; on a non-numeric string it fails, as `float` raises
  `ValueError`.
* Python exceptions are explicit: `PyErr.parseError` is the caught
  `ET.ParseError` (the function prints the message and returns `None`),
  `PyErr.attributeError` the uncaught `AttributeError` from calling
  `.get` on `None` (missing `mxGraphModel`), `PyErr.valueError` the
  uncaught `ValueError` from `float`, `PyErr.zeroDivisionError` the
  uncaught `ZeroDivisionError` (zero canvas dimension).
* The f-string fragments appended to `shapes_xml` / `connects_xml` are
  kept structured (`VShapeXml`, `VConnect`) together with rendering
  functions that produce the literal XML text; `ratStr` abstracts
  Python's float formatting (no claim depends on the numeric text).
* The two `for cell in mx_cells` loops are `vertexPass` and
  `edgePass`; `shape_map` is an association list whose lookup returns
  the most recently inserted binding, as a Python dict does.
-/

/-- A parsed XML element: tag, attributes (in document order) and
child elements.  Models an `xml.etree.ElementTree.Element`. -/
inductive XElem : Type where
  | mk : String → List (String × String) → List XElem → XElem

def XElem.tag : XElem → String
  | .mk t _ _ => t

def XElem.attrs : XElem → List (String × String)
  | .mk _ a _ => a

def XElem.children : XElem → List XElem
  | .mk _ _ c => c

mutual

/-- An element followed by all of its descendants, in document
(pre)order. -/
def elemPreorder : XElem → List XElem
  | .mk t a cs => .mk t a cs :: preorderList cs

/-- All elements of a forest in document (pre)order.  `preorderList es`
lists every element of every tree in `es`, parents before children. -/
def preorderList : List XElem → List XElem
  | [] => []
  | e :: rest => elemPreorder e ++ preorderList rest

end

/-- `root.findall(".//tag")`: all descendants of `root` (excluding
`root` itself) with the given tag, in document order. -/
def findAllDesc (root : XElem) (t : String) : List XElem :=
  (preorderList root.children).filter (fun e => decide (e.tag = t))

/-- `root.find(".//tag")`: first descendant with the given tag, if any. -/
def findDesc (root : XElem) (t : String) : Option XElem :=
  (findAllDesc root t).head?

/-- `elem.find("tag")`: first direct child with the given tag. -/
def findChild (e : XElem) (t : String) : Option XElem :=
  e.children.find? (fun c => decide (c.tag = t))

/-- `elem.get("key")`: attribute lookup, `None` when absent. -/
def getAttr (e : XElem) (k : String) : Option String :=
  (e.attrs.find? (fun p => decide (p.1 = k))).map (fun p => p.2)

/-- `elem.get("key", default)`. -/
def getAttrD (e : XElem) (k d : String) : String :=
  (getAttr e k).getD d

/-- `shape_map` lookup.  Keys are `cell.get("id")` values, hence
`Option String` (a cell may lack an `id` attribute, as `get` yields
`None`).  The head of the list is the most recent insertion, so this
lookup has Python-dict overwrite semantics. -/
def lookupMap (m : List (Option String × Nat)) (k : Option String) : Option Nat :=
  (m.find? (fun p => decide (p.1 = k))).map (fun p => p.2)

/-- Python's `needle in hay` on strings: substring containment. -/
def containsSub (hay needle : String) : Bool :=
  decide (needle.toList <:+: hay.toList)

/-- Value of a (nonempty, all-digit) digit list. -/
def digitsToNat (cs : List Char) : Nat :=
  cs.foldl (fun a c => a * 10 + (c.toNat - 48)) 0

/-- Python `float(s)` restricted to plain signed decimal literals
(`"120"`, `"-3.5"`, `".5"`, `"7."`), the only forms the module's
defaults and the claims exercise; `none` models `float` raising
`ValueError` (e.g. on `"abc"`). -/
def parseFloat? (s : String) : Option ℚ :=
  let cs := s.toList
  let signBody : Bool × List Char :=
    match cs with
    | '-' :: r => (true, r)
    | '+' :: r => (false, r)
    | _ => (false, cs)
  let neg := signBody.1
  let body := signBody.2
  let ip := body.takeWhile (fun c => decide (c ≠ '.'))
  let rest := body.dropWhile (fun c => decide (c ≠ '.'))
  let mag : Option ℚ :=
    match rest with
    | [] =>
        if ip.isEmpty then none
        else if ip.all Char.isDigit then some ((digitsToNat ip : ℚ)) else none
    | _ :: fp =>
        if ip.isEmpty && fp.isEmpty then none
        else if ip.all Char.isDigit && fp.all Char.isDigit then
          some ((digitsToNat ip : ℚ) + (digitsToNat fp : ℚ) / ((10 : ℚ) ^ fp.length))
        else none
  mag.map (fun q => if neg then -q else q)

/-- `get_master_id_from_style` from the source: empty style → `"1"`
(Rectangle), a style containing `"ellipse"` → `"2"` (Ellipse), else one
containing `"rhombus"` → `"3"` (Rhombus), otherwise `"1"`. -/
def get_master_id_from_style (style : String) : String :=
  if style = "" then "1"
  else if containsSub style "ellipse" then "2"
  else if containsSub style "rhombus" then "3"
  else "1"

/-- One `str.replace(pat, rep)` call for a one-character pattern, as a
structural pass over the character list. -/
def replaceAll (pat : Char) (rep : List Char) : List Char → List Char
  | [] => []
  | a :: rest =>
    if a = pat then rep ++ replaceAll pat rep rest else a :: replaceAll pat rep rest

/-- The chained `.replace` calls escaping `&`, `<`, `>` in a vertex's
display text, innermost (`&`) first as in the source. -/
def escapePy (s : String) : String :=
  String.mk (replaceAll '>' "&gt;".toList
    (replaceAll '<' "&lt;".toList
      (replaceAll '&' "&amp;".toList s.toList)))

/-- One entry of `shapes_xml`: either the vertex-shape f-string (id,
master, PinX/PinY/Width/Height cells, text) or the connector-shape
f-string (id, master `"4"`, Begin/End cells, written as the literal
`0`s of the source). -/
inductive VShapeXml : Type where
  | vertexShape (id : Nat) (master : String) (pinX pinY width height : ℚ) (text : String)
  | connectorShape (id : Nat) (beginX beginY endX endY : ℚ)
deriving DecidableEq

/-- One entry of `connects_xml`: the `<Connect .../>` f-string. -/
structure VConnect where
  fromSheet : Nat
  fromCell : String
  toSheet : Nat
  toCell : String
deriving DecidableEq

/-- The Python exceptions the converter can produce.  `parseError` is
caught (the function prints the message and returns `None`); the other
three propagate uncaught out of `convert_drawio_to_vsdx`. -/
inductive PyErr : Type where
  | parseError (msg : String)
  | attributeError
  | valueError
  | zeroDivisionError
deriving DecidableEq

/-- The mutable locals of `convert_drawio_to_vsdx` threaded through the
two cell loops. -/
structure ConvState where
  shapes : List VShapeXml
  connects : List VConnect
  shapeMap : List (Option String × Nat)
  counter : Nat
deriving DecidableEq

/-- Initial loop state: empty lists, `visio_id_counter = 1`. -/
def initState : ConvState := ⟨[], [], [], 1⟩

/-- One iteration of the vertex loop (source lines 83–106).  Note the
source registers `shape_map[cell_id] = visio_id` and increments the
counter *before* the `if geo is None: continue` test. -/
def vertexStep (pw ph : ℚ) (st : ConvState) (cell : XElem) : Except PyErr ConvState :=
  if getAttr cell "vertex" = some "1" then
    let cell_id := getAttr cell "id"
    let visio_id := st.counter
    let shapeMap' := (cell_id, visio_id) :: st.shapeMap
    let counter' := st.counter + 1
    match findChild cell "mxGeometry" with
    | none => .ok { st with shapeMap := shapeMap', counter := counter' }
    | some geo =>
      let master_id := get_master_id_from_style (getAttrD cell "style" "")
      match parseFloat? (getAttrD geo "width" "120") with
      | none => .error .valueError
      | some width_px =>
      match parseFloat? (getAttrD geo "height" "60") with
      | none => .error .valueError
      | some height_px =>
      match parseFloat? (getAttrD geo "x" "0") with
      | none => .error .valueError
      | some x_px =>
      match parseFloat? (getAttrD geo "y" "0") with
      | none => .error .valueError
      | some y_px =>
      if pw = 0 ∨ ph = 0 then .error .zeroDivisionError
      else
        let width_in := (width_px / pw) * 11
        let height_in := (height_px / ph) * (8.5 : ℚ)
        let pin_x_in := ((x_px + width_px / 2) / pw) * 11
        let pin_y_in := (8.5 : ℚ) - (((y_px + height_px / 2) / ph) * (8.5 : ℚ))
        let text := escapePy (getAttrD cell "value" "")
        .ok { st with
              shapes := st.shapes ++
                [VShapeXml.vertexShape visio_id master_id pin_x_in pin_y_in width_in height_in text],
              shapeMap := shapeMap',
              counter := counter' }
  else .ok st

/-- One iteration of the connector loop (source lines 109–122). -/
def edgeStep (st : ConvState) (cell : XElem) : ConvState :=
  if getAttr cell "edge" = some "1" then
    let source_id := getAttr cell "source"
    let target_id := getAttr cell "target"
    match lookupMap st.shapeMap source_id, lookupMap st.shapeMap target_id with
    | some source_visio_id, some target_visio_id =>
      let visio_id := st.counter
      { st with
        counter := st.counter + 1,
        shapes := st.shapes ++ [VShapeXml.connectorShape visio_id 0 0 0 0],
        connects := st.connects ++
          [⟨visio_id, "BeginX", source_visio_id, "PinX"⟩,
           ⟨visio_id, "EndX", target_visio_id, "PinX"⟩] }
    | _, _ => st
  else st

/-- The vertex loop: `for cell in mx_cells: if cell.get("vertex") == "1": ...`. -/
def vertexPass (pw ph : ℚ) : ConvState → List XElem → Except PyErr ConvState
  | st, [] => .ok st
  | st, c :: cs =>
    match vertexStep pw ph st c with
    | .error e => .error e
    | .ok st' => vertexPass pw ph st' cs

/-- The connector loop: `for cell in mx_cells: if cell.get("edge") == "1": ...`. -/
def edgePass : ConvState → List XElem → ConvState
  | st, [] => st
  | st, c :: cs => edgePass (edgeStep st c) cs

/-- Rendering of a rational for the generated XML text.  Abstracts
Python's float formatting (no claim inspects the numeric text). -/
def ratStr (q : ℚ) : String :=
  toString q.num ++ "/" ++ toString q.den

/-- The f-string of source line 106 resp. line 120. -/
def renderShape : VShapeXml → String
  | .vertexShape i m px py w h t =>
      "<Shape ID=\"" ++ toString i ++ "\" Type=\"Shape\" Master=\"" ++ m ++
      "\"><Cell N=\"PinX\" V=\"" ++ ratStr px ++ "\"/><Cell N=\"PinY\" V=\"" ++ ratStr py ++
      "\"/><Cell N=\"Width\" V=\"" ++ ratStr w ++ "\"/><Cell N=\"Height\" V=\"" ++ ratStr h ++
      "\"/><Text>" ++ t ++ "</Text></Shape>"
  | .connectorShape i bX bY eX eY =>
      "<Shape ID=\"" ++ toString i ++ "\" Type=\"Shape\" Master=\"4\"><Cell N=\"BeginX\" V=\"" ++
      ratStr bX ++ "\"/><Cell N=\"BeginY\" V=\"" ++ ratStr bY ++ "\"/><Cell N=\"EndX\" V=\"" ++
      ratStr eX ++ "\"/><Cell N=\"EndY\" V=\"" ++ ratStr eY ++ "\"/></Shape>"

/-- The f-strings of source lines 121–122. -/
def renderConnect (c : VConnect) : String :=
  "<Connect FromSheet=\"" ++ toString c.fromSheet ++ "\" FromCell=\"" ++ c.fromCell ++
  "\" ToSheet=\"" ++ toString c.toSheet ++ "\" ToCell=\"" ++ c.toCell ++ "\"/>"

/-- `CONTENT_TYPES_XML` template. -/
def CONTENT_TYPES_XML : String :=
  "<?xml version='1.0' encoding='UTF-8' standalone='yes'?>\n<Types xmlns=\"http://schemas.openxmlformats.org/package/2006/content-types\">\n    <Default Extension=\"rels\" ContentType=\"application/vnd.openxmlformats-package.relationships+xml\"/>\n    <Default Extension=\"xml\" ContentType=\"application/vnd.ms-visio.xml\"/>\n    <Override PartName=\"/visio/pages/page1.xml\" ContentType=\"application/vnd.ms-visio.page+xml\"/>\n    <Override PartName=\"/visio/masters/masters.xml\" ContentType=\"application/vnd.ms-visio.masters+xml\"/>\n    <Override PartName=\"/visio/document.xml\" ContentType=\"application/vnd.ms-visio.drawing.main+xml\"/>\n</Types>\n"

/-- `RELS_XML` template. -/
def RELS_XML : String :=
  "<?xml version='1.0' encoding='UTF-8' standalone='yes'?>\n<Relationships xmlns=\"http://schemas.openxmlformats.org/package/2006/relationships\">\n    <Relationship Id=\"rId1\" Type=\"http://schemas.microsoft.com/visio/2010/relationships/document\" Target=\"visio/document.xml\"/>\n</Relationships>\n"

/-- `DOCUMENT_RELS_XML` template. -/
def DOCUMENT_RELS_XML : String :=
  "<?xml version='1.0' encoding='UTF-8' standalone='yes'?>\n<Relationships xmlns=\"http://schemas.openxmlformats.org/package/2006/relationships\">\n    <Relationship Id=\"rId2\" Type=\"http://schemas.microsoft.com/visio/2010/relationships/page\" Target=\"pages/page1.xml\"/>\n    <Relationship Id=\"rId1\" Type=\"http://schemas.microsoft.com/visio/2010/relationships/masters\" Target=\"masters/masters.xml\"/>\n</Relationships>\n"

/-- `DOCUMENT_XML` template. -/
def DOCUMENT_XML : String :=
  "<?xml version='1.0' encoding='UTF-8' standalone='yes'?>\n<VisioDocument xmlns=\"http://schemas.microsoft.com/visio/2010/drawing\">\n    <Pages>\n        <Page ID=\"0\" NameU=\"Page-1\" ViewScale=\"1\" IsBackground=\"0\">\n            <PageSheet><Cell N=\"PageWidth\" V=\"11\" U=\"IN\"/><Cell N=\"PageHeight\" V=\"8.5\" U=\"IN\"/></PageSheet>\n        </Page>\n    </Pages>\n</VisioDocument>\n"

/-- `MASTERS_XML` template (braces of the UniqueID GUIDs escaped). -/
def MASTERS_XML : String :=
  "<?xml version='1.0' encoding='UTF-8' standalone='yes'?>\n<Masters xmlns=\"http://schemas.microsoft.com/visio/2010/drawing\">\n    <Master ID=\"1\" UniqueID=\"\x7b00000000-0000-0000-0000-000000000000\x7d\" NameU=\"Rectangle\"/>\n    <Master ID=\"2\" UniqueID=\"\x7b00000000-0000-0000-0000-000000000001\x7d\" NameU=\"Ellipse\"/>\n    <Master ID=\"3\" UniqueID=\"\x7b00000000-0000-0000-0000-000000000002\x7d\" NameU=\"Rhombus\"/>\n    <Master ID=\"4\" UniqueID=\"\x7b00000000-0000-0000-0000-000000000003\x7d\" NameU=\"Dynamic connector\"/>\n</Masters>\n"

/-- `page1_xml` (source lines 128–132). -/
def renderPage (shapes : List VShapeXml) (connects : List VConnect) : String :=
  "<?xml version='1.0' encoding='UTF-8' standalone='yes'?>\n    <PageContents xmlns=\"http://schemas.microsoft.com/visio/2010/drawing\">\n        <Shapes>" ++
  String.join (shapes.map renderShape) ++ "</Shapes>\n        <Connects>" ++
  String.join (connects.map renderConnect) ++ "</Connects>\n    </PageContents>"

/-- The six `zf.writestr` calls: part path ↦ part text.  The zip
container itself (deflate, headers) is external (`zipfile`); the part
mapping is what the converter determines. -/
def buildParts (page1 : String) : List (String × String) :=
  [("[Content_Types].xml", CONTENT_TYPES_XML),
   ("_rels/.rels", RELS_XML),
   ("visio/document.xml", DOCUMENT_XML),
   ("visio/_rels/document.xml.rels", DOCUMENT_RELS_XML),
   ("visio/masters/masters.xml", MASTERS_XML),
   ("visio/pages/page1.xml", page1)]

/-- The observable result of a successful conversion: the generated
records, the final `shape_map` and counter, the canvas dimensions the
run used, and the package parts. -/
structure VsdxOutput where
  shapes : List VShapeXml
  connects : List VConnect
  shapeMap : List (Option String × Nat)
  counter : Nat
  pageWidthPx : ℚ
  pageHeightPx : ℚ
  parts : List (String × String)

/-- `convert_drawio_to_vsdx` after a successful `ET.fromstring`:
collect `mx_cells`, read the canvas dimensions off `mxGraphModel`
(AttributeError when the element is absent, ValueError when a present
attribute is non-numeric), run the vertex loop then the edge loop,
and assemble the package. -/
def convertRoot (root : XElem) : Except PyErr VsdxOutput :=
  let mxCells := findAllDesc root "mxCell"
  match findDesc root "mxGraphModel" with
  | none => .error .attributeError
  | some gm =>
    match parseFloat? (getAttrD gm "pageWidth" "1920") with
    | none => .error .valueError
    | some pw =>
      match parseFloat? (getAttrD gm "pageHeight" "1080") with
      | none => .error .valueError
      | some ph =>
        match vertexPass pw ph initState mxCells with
        | .error e => .error e
        | .ok st1 =>
          let st2 := edgePass st1 mxCells
          .ok { shapes := st2.shapes, connects := st2.connects,
                shapeMap := st2.shapeMap, counter := st2.counter,
                pageWidthPx := pw, pageHeightPx := ph,
                parts := buildParts (renderPage st2.shapes st2.connects) }

/-- `convert_drawio_to_vsdx` on the outcome of `ET.fromstring`:
a parse failure is caught and yields no package (the source prints the
message and returns `None`, modelled as `PyErr.parseError msg`). -/
def convert_drawio_to_vsdx (parsed : Except String XElem) : Except PyErr VsdxOutput :=
  match parsed with
  | .error msg => .error (.parseError msg)
  | .ok root => convertRoot root

/-- The assigned id carried by a `shapes_xml` entry. -/
def shapeIdOf : VShapeXml → Nat
  | .vertexShape i _ _ _ _ _ _ => i
  | .connectorShape i _ _ _ _ => i

/-- Ids of a list of shape entries, in emission order. -/
def idsOf (l : List VShapeXml) : List Nat :=
  l.map shapeIdOf

/-- Whether a shape entry is a connector (edge-pass) shape. -/
def isConnectorShape : VShapeXml → Bool
  | .connectorShape _ _ _ _ _ => true
  | .vertexShape _ _ _ _ _ _ _ => false

/-- Ids of the vertex-pass shape entries, in emission order. -/
def vertexIdsOf (l : List VShapeXml) : List Nat :=
  idsOf (l.filter (fun s => !isConnectorShape s))

/-- Ids of the edge-pass connector shape entries, in emission order. -/
def connectorIdsOf (l : List VShapeXml) : List Nat :=
  idsOf (l.filter isConnectorShape)

/-- `cell.get("vertex") == "1"`. -/
def isVertexCell (c : XElem) : Bool :=
  decide (getAttr c "vertex" = some "1")

/-- `cell.get("edge") == "1"`. -/
def isEdgeCell (c : XElem) : Bool :=
  decide (getAttr c "edge" = some "1")

/-- Whether a cell has an `mxGeometry` direct child. -/
def hasGeomChild (c : XElem) : Bool :=
  (findChild c "mxGeometry").isSome

/-- Number of vertex cells in a cell list. -/
def numVertexCells (cells : List XElem) : Nat :=
  (cells.filter isVertexCell).length

/-- Whether an edge cell's source and target both resolve in the map. -/
def resolvedEdgeB (m : List (Option String × Nat)) (c : XElem) : Bool :=
  isEdgeCell c && (lookupMap m (getAttr c "source")).isSome &&
    (lookupMap m (getAttr c "target")).isSome

/-- Number of edges of the list that resolve against the map. -/
def countResolved (m : List (Option String × Nat)) (cells : List XElem) : Nat :=
  (cells.filter (resolvedEdgeB m)).length

/-- The connector shape the edge pass emits for id `i`. -/
def connectorMk (i : Nat) : VShapeXml :=
  VShapeXml.connectorShape i 0 0 0 0

/-- Page-contents consistency: every `Connect` refers (FromSheet and
ToSheet) to the id of some `Shape` element of the page. -/
def connectsConsistent (o : VsdxOutput) : Bool :=
  o.connects.all (fun c =>
    (idsOf o.shapes).contains c.fromSheet && (idsOf o.shapes).contains c.toSheet)

/-- Whether a conversion outcome is the caught-`ParseError` failure. -/
def isParseFailure : Except PyErr VsdxOutput → Bool
  | .error (.parseError _) => true
  | _ => false

/-- PinY values of the vertex shapes, in emission order. -/
def vertexPinYs (o : VsdxOutput) : List ℚ :=
  o.shapes.filterMap (fun s =>
    match s with
    | .vertexShape _ _ _ py _ _ _ => some py
    | _ => none)

/-- (PinX, PinY, Width, Height) of the vertex shapes, in emission order. -/
def vertexQuads (o : VsdxOutput) : List (ℚ × ℚ × ℚ × ℚ) :=
  o.shapes.filterMap (fun s =>
    match s with
    | .vertexShape _ _ px py w h _ => some (px, py, w, h)
    | _ => none)

/-- Whether the vertex-shape ids are exactly `1, 2, …, n` (strictly
increasing from 1, no gaps, no reuse). -/
def vertexIdsCanonical (o : VsdxOutput) : Bool :=
  vertexIdsOf o.shapes == List.range' 1 (vertexIdsOf o.shapes).length

/-- Fallback output (used only to extract the value out of a
conversion already proved successful). -/
def anyOutput : VsdxOutput :=
  ⟨[], [], [], 1, 0, 0, []⟩

/-- Document with one vertex (`id="a"`) that has no geometry child. -/
def c1root : XElem :=
  XElem.mk "mxfile" []
    [XElem.mk "mxGraphModel" []
      [XElem.mk "root" []
        [XElem.mk "mxCell" [("id", "a"), ("vertex", "1")] []]]]

/-- Document with vertex `a` (with geometry), vertex `b` (no
geometry), and an edge from `a` to `b`. -/
def c2root : XElem :=
  XElem.mk "mxfile" []
    [XElem.mk "mxGraphModel" [("pageWidth", "1920"), ("pageHeight", "1080")]
      [XElem.mk "root" []
        [XElem.mk "mxCell" [("id", "a"), ("vertex", "1")]
          [XElem.mk "mxGeometry" [("x", "100"), ("y", "100"), ("width", "120"), ("height", "60")] []],
         XElem.mk "mxCell" [("id", "b"), ("vertex", "1")] [],
         XElem.mk "mxCell" [("id", "e"), ("edge", "1"), ("source", "a"), ("target", "b")] []]]]

/-- Document whose first vertex (`b`) lacks geometry and whose second
vertex (`a`) has geometry. -/
def c3root : XElem :=
  XElem.mk "mxfile" []
    [XElem.mk "mxGraphModel" [("pageWidth", "1920"), ("pageHeight", "1080")]
      [XElem.mk "root" []
        [XElem.mk "mxCell" [("id", "b"), ("vertex", "1")] [],
         XElem.mk "mxCell" [("id", "a"), ("vertex", "1")]
          [XElem.mk "mxGeometry" [("x", "10"), ("y", "20"), ("width", "120"), ("height", "60")] []]]]]

/-- Document with two geometry-bearing vertices and one edge. -/
def c3wRoot : XElem :=
  XElem.mk "mxfile" []
    [XElem.mk "mxGraphModel" [("pageWidth", "1920"), ("pageHeight", "1080")]
      [XElem.mk "root" []
        [XElem.mk "mxCell" [("id", "a"), ("vertex", "1")]
          [XElem.mk "mxGeometry" [("x", "0"), ("y", "0"), ("width", "120"), ("height", "60")] []],
         XElem.mk "mxCell" [("id", "b"), ("vertex", "1")]
          [XElem.mk "mxGeometry" [("x", "300"), ("y", "200"), ("width", "120"), ("height", "60")] []],
         XElem.mk "mxCell" [("id", "e"), ("edge", "1"), ("source", "a"), ("target", "b")] []]]]

/-- The output of converting `c3wRoot`. -/
def c3wOut : VsdxOutput :=
  ((convert_drawio_to_vsdx (.ok c3wRoot)).toOption).getD anyOutput

/-- The geometry element of the C5 concrete instance: (0, 0, 120, 60). -/
def c5geo : XElem :=
  XElem.mk "mxGeometry" [("x", "0"), ("y", "0"), ("width", "120"), ("height", "60")] []

/-- The vertex cell of the C5 concrete instance. -/
def c5cell : XElem :=
  XElem.mk "mxCell" [("id", "a"), ("vertex", "1")] [c5geo]

/-- Canvas 1920×1080 with the single C5 vertex. -/
def c5root : XElem :=
  XElem.mk "mxfile" []
    [XElem.mk "mxGraphModel" [("pageWidth", "1920"), ("pageHeight", "1080")]
      [XElem.mk "root" [] [c5cell]]]

/-- Document whose `mxGraphModel` carries a non-numeric `pageWidth`. -/
def c7root : XElem :=
  XElem.mk "mxfile" []
    [XElem.mk "mxGraphModel" [("pageWidth", "abc")]
      [XElem.mk "root" [] []]]

/-- Document whose `mxGraphModel` has neither `pageWidth` nor `pageHeight`. -/
def c7wRootA : XElem :=
  XElem.mk "mxfile" []
    [XElem.mk "mxGraphModel" [] [XElem.mk "root" [] []]]

/-- The output of converting `c7wRootA`. -/
def c7wOutA : VsdxOutput :=
  ((convert_drawio_to_vsdx (.ok c7wRootA)).toOption).getD anyOutput

/-- Document whose `mxGraphModel` declares numeric `pageWidth="100.5"`,
`pageHeight="200"`. -/
def c7wRootB : XElem :=
  XElem.mk "mxfile" []
    [XElem.mk "mxGraphModel" [("pageWidth", "100.5"), ("pageHeight", "200")]
      [XElem.mk "root" [] []]]

/-- The output of converting `c7wRootB`. -/
def c7wOutB : VsdxOutput :=
  ((convert_drawio_to_vsdx (.ok c7wRootB)).toOption).getD anyOutput

/-- A well-formed document with no `mxGraphModel` element anywhere. -/
def c8root : XElem :=
  XElem.mk "mxfile" [] [XElem.mk "diagram" [] []]

/-- Edge-pass state with `a ↦ 1`, `b ↦ 2` mapped and counter 3. -/
def c4st : ConvState :=
  ⟨[], [], [(some "a", 1), (some "b", 2)], 3⟩

/-- Edge cell from `a` to `b`. -/
def c4edge : XElem :=
  XElem.mk "mxCell" [("id", "e1"), ("edge", "1"), ("source", "a"), ("target", "b")] []

/-- Edge cell whose source `zz` is unmapped. -/
def c4dangling : XElem :=
  XElem.mk "mxCell" [("id", "e2"), ("edge", "1"), ("source", "zz"), ("target", "b")] []

/-- A cell that is not a vertex cell is skipped by the vertex loop. -/
theorem vertexStep_not_vertex (pw ph : ℚ) (st : ConvState) (c : XElem)
    (hv : isVertexCell c = false) : vertexStep pw ph st c = .ok st := by
  have h : ¬ getAttr c "vertex" = some "1" := of_decide_eq_false hv
  unfold vertexStep
  rw [if_neg h]

/-- A vertex cell with no geometry child: the counter is consumed and
the id registered, but no shape is appended. -/
theorem vertexStep_noGeo (pw ph : ℚ) (st : ConvState) (c : XElem)
    (hv : getAttr c "vertex" = some "1")
    (hg : findChild c "mxGeometry" = none) :
    vertexStep pw ph st c =
      .ok { st with shapeMap := (getAttr c "id", st.counter) :: st.shapeMap,
                    counter := st.counter + 1 } := by
  unfold vertexStep
  rw [if_pos hv, hg]

/-- A vertex cell with geometry whose four attributes parse, on a
nonzero canvas: the emitted shape, its coordinate formulas, and the
state update. -/
theorem vertexStep_geo (pw ph : ℚ) (st : ConvState) (c geo : XElem)
    (x y w h : ℚ)
    (hv : getAttr c "vertex" = some "1")
    (hg : findChild c "mxGeometry" = some geo)
    (hw : parseFloat? (getAttrD geo "width" "120") = some w)
    (hh : parseFloat? (getAttrD geo "height" "60") = some h)
    (hx : parseFloat? (getAttrD geo "x" "0") = some x)
    (hy : parseFloat? (getAttrD geo "y" "0") = some y)
    (hpw : pw ≠ 0) (hph : ph ≠ 0) :
    vertexStep pw ph st c =
      .ok { st with
            shapes := st.shapes ++
              [VShapeXml.vertexShape st.counter
                (get_master_id_from_style (getAttrD c "style" ""))
                (((x + w / 2) / pw) * 11)
                ((8.5 : ℚ) - (((y + h / 2) / ph) * (8.5 : ℚ)))
                ((w / pw) * 11) ((h / ph) * (8.5 : ℚ))
                (escapePy (getAttrD c "value" ""))],
            shapeMap := (getAttr c "id", st.counter) :: st.shapeMap,
            counter := st.counter + 1 } := by
  unfold vertexStep
  rw [if_pos hv]
  simp only [hg, hw, hh, hx, hy]
  rw [if_neg (not_or.mpr ⟨hpw, hph⟩)]

/-- Case analysis of a successful vertex-loop iteration. -/
theorem vertexStep_ok_cases (pw ph : ℚ) (st : ConvState) (c : XElem) (st' : ConvState)
    (hok : vertexStep pw ph st c = .ok st') :
    (isVertexCell c = false ∧ st' = st) ∨
    (isVertexCell c = true ∧
      st'.counter = st.counter + 1 ∧
      st'.shapeMap = (getAttr c "id", st.counter) :: st.shapeMap ∧
      st'.connects = st.connects ∧
      ((hasGeomChild c = false ∧ st'.shapes = st.shapes) ∨
       (hasGeomChild c = true ∧
        ∃ m px py w h t,
          st'.shapes = st.shapes ++ [VShapeXml.vertexShape st.counter m px py w h t]))) := by
  by_cases hv : getAttr c "vertex" = some "1"
  · right
    refine ⟨by simp [isVertexCell, hv], ?_⟩
    unfold vertexStep at hok
    rw [if_pos hv] at hok
    cases hg : findChild c "mxGeometry" with
    | none =>
      simp only [hg] at hok
      cases hok
      exact ⟨rfl, rfl, rfl, Or.inl ⟨by simp [hasGeomChild, hg], rfl⟩⟩
    | some geo =>
      simp only [hg] at hok
      cases hw : parseFloat? (getAttrD geo "width" "120") with
      | none => simp only [hw] at hok; cases hok
      | some w =>
      simp only [hw] at hok
      cases hh : parseFloat? (getAttrD geo "height" "60") with
      | none => simp only [hh] at hok; cases hok
      | some h =>
      simp only [hh] at hok
      cases hx : parseFloat? (getAttrD geo "x" "0") with
      | none => simp only [hx] at hok; cases hok
      | some x =>
      simp only [hx] at hok
      cases hy : parseFloat? (getAttrD geo "y" "0") with
      | none => simp only [hy] at hok; cases hok
      | some y =>
      simp only [hy] at hok
      by_cases hz : pw = 0 ∨ ph = 0
      · rw [if_pos hz] at hok; cases hok
      · rw [if_neg hz] at hok
        cases hok
        exact ⟨rfl, rfl, rfl,
          Or.inr ⟨by simp [hasGeomChild, hg], _, _, _, _, _, _, rfl⟩⟩
  · left
    have hnc : isVertexCell c = false := decide_eq_false hv
    rw [vertexStep_not_vertex pw ph st c hnc] at hok
    cases hok
    exact ⟨hnc, rfl⟩

/-- An edge whose endpoints do not both resolve leaves the state
untouched (no shape, no connects, no id consumed). -/
theorem edgeStep_not_resolved (st : ConvState) (c : XElem)
    (hr : resolvedEdgeB st.shapeMap c = false) : edgeStep st c = st := by
  by_cases he : getAttr c "edge" = some "1"
  · unfold edgeStep
    rw [if_pos he]
    cases hs : lookupMap st.shapeMap (getAttr c "source") with
    | none => simp only [hs]
    | some sv =>
      cases ht : lookupMap st.shapeMap (getAttr c "target") with
      | none => simp only [hs, ht]
      | some tv =>
        exfalso
        unfold resolvedEdgeB isEdgeCell at hr
        rw [hs, ht] at hr
        simp [he] at hr
  · unfold edgeStep
    rw [if_neg he]

/-- An edge whose endpoints both resolve: one connector shape with
Begin/End all 0, and the two Connect records. -/
theorem edgeStep_resolved (st : ConvState) (c : XElem) (sv tv : Nat)
    (he : getAttr c "edge" = some "1")
    (hs : lookupMap st.shapeMap (getAttr c "source") = some sv)
    (ht : lookupMap st.shapeMap (getAttr c "target") = some tv) :
    edgeStep st c =
      { st with
        counter := st.counter + 1,
        shapes := st.shapes ++ [VShapeXml.connectorShape st.counter 0 0 0 0],
        connects := st.connects ++
          [⟨st.counter, "BeginX", sv, "PinX"⟩, ⟨st.counter, "EndX", tv, "PinX"⟩] } := by
  unfold edgeStep
  rw [if_pos he]
  simp only [hs, ht]

/-- `numVertexCells` over a cons with a vertex head. -/
theorem numVertexCells_cons_true (c : XElem) (cs : List XElem)
    (h : isVertexCell c = true) : numVertexCells (c :: cs) = numVertexCells cs + 1 := by
  unfold numVertexCells
  rw [List.filter_cons, h]
  simp

/-- `numVertexCells` over a cons with a non-vertex head. -/
theorem numVertexCells_cons_false (c : XElem) (cs : List XElem)
    (h : isVertexCell c = false) : numVertexCells (c :: cs) = numVertexCells cs := by
  unfold numVertexCells
  rw [List.filter_cons, h]
  simp

/-- `countResolved` over a cons with a resolving head. -/
theorem countResolved_cons_true (m : List (Option String × Nat)) (c : XElem)
    (cs : List XElem) (h : resolvedEdgeB m c = true) :
    countResolved m (c :: cs) = countResolved m cs + 1 := by
  unfold countResolved
  rw [List.filter_cons, h]
  simp

/-- `countResolved` over a cons with a non-resolving head. -/
theorem countResolved_cons_false (m : List (Option String × Nat)) (c : XElem)
    (cs : List XElem) (h : resolvedEdgeB m c = false) :
    countResolved m (c :: cs) = countResolved m cs := by
  unfold countResolved
  rw [List.filter_cons, h]
  simp

/-- `idsOf` distributes over append. -/
theorem idsOf_append (l₁ l₂ : List VShapeXml) :
    idsOf (l₁ ++ l₂) = idsOf l₁ ++ idsOf l₂ := by
  simp [idsOf]

/-- The id of the connector shape built for id `i` is `i`. -/
theorem shapeIdOf_connectorMk (i : Nat) : shapeIdOf (connectorMk i) = i := rfl

/-- Ids of a block of connector shapes. -/
theorem idsOf_connectorMk_map (r : List Nat) : idsOf (r.map connectorMk) = r := by
  unfold idsOf
  rw [List.map_map]
  have hcomp : shapeIdOf ∘ connectorMk = id := rfl
  rw [hcomp, List.map_id]

/-- Bounds of membership in `List.range'` (step 1). -/
theorem memRange1_bounds {m s n : Nat} (h : m ∈ List.range' s n) : s ≤ m ∧ m < s + n := by
  rcases List.mem_range'.mp h with ⟨i, hi, rfl⟩
  omega

/-- `List.range' s n` is strictly increasing. -/
theorem pairwiseLtRange : ∀ (n s : Nat), List.Pairwise (· < ·) (List.range' s n)
  | 0, _ => List.Pairwise.nil
  | n + 1, s => by
    rw [List.range'_succ]
    refine List.Pairwise.cons ?_ (pairwiseLtRange n (s + 1))
    intro b hb
    have hbb := memRange1_bounds hb
    omega

/-- Invariant transport along the vertex loop: on success the shape
ids stay strictly increasing and below the counter, only vertex shapes
are emitted, the counter advances by the number of vertex cells, and
`connects_xml` is untouched. -/
theorem vertexPass_inv (pw ph : ℚ) (cells : List XElem) :
    ∀ (st st' : ConvState),
      vertexPass pw ph st cells = .ok st' →
      List.Pairwise (· < ·) (idsOf st.shapes) →
      (∀ i ∈ idsOf st.shapes, i < st.counter) →
      (∀ s ∈ st.shapes, isConnectorShape s = false) →
      List.Pairwise (· < ·) (idsOf st'.shapes) ∧
      (∀ i ∈ idsOf st'.shapes, i < st'.counter) ∧
      (∀ s ∈ st'.shapes, isConnectorShape s = false) ∧
      st'.counter = st.counter + numVertexCells cells ∧
      st'.connects = st.connects := by
  induction cells with
  | nil =>
    intro st st' h hp hb hc
    simp only [vertexPass] at h
    cases h
    exact ⟨hp, hb, hc, by simp [numVertexCells], rfl⟩
  | cons c cs ih =>
    intro st st' h hp hb hc
    simp only [vertexPass] at h
    cases hstep : vertexStep pw ph st c with
    | error e => simp only [hstep] at h; cases h
    | ok st1 =>
      simp only [hstep] at h
      rcases vertexStep_ok_cases pw ph st c st1 hstep with ⟨hv, rfl⟩ |
        ⟨hv, hcnt, _, hconn, hsh⟩
      · obtain ⟨p1, p2, p3, p4, p5⟩ := ih st1 st' h hp hb hc
        exact ⟨p1, p2, p3, by rw [p4, numVertexCells_cons_false c cs hv], p5⟩
      · have t1 : List.Pairwise (· < ·) (idsOf st1.shapes) ∧
            (∀ i ∈ idsOf st1.shapes, i < st1.counter) ∧
            (∀ s ∈ st1.shapes, isConnectorShape s = false) := by
          rcases hsh with ⟨_, heq⟩ | ⟨_, m, px, py, w, hgt, t, heq⟩
          · rw [heq, hcnt]
            exact ⟨hp, fun i hi => Nat.lt_succ_of_lt (hb i hi), hc⟩
          · refine ⟨?_, ?_, ?_⟩
            · rw [heq, idsOf_append]
              refine List.pairwise_append.mpr ⟨hp, List.pairwise_singleton _ _, ?_⟩
              intro a ha b hb2
              have hbeq : b = st.counter := by
                simpa [idsOf, shapeIdOf] using hb2
              rw [hbeq]
              exact hb a ha
            · intro i hi
              rw [heq, idsOf_append] at hi
              rw [hcnt]
              rcases List.mem_append.mp hi with hi | hi
              · exact Nat.lt_succ_of_lt (hb i hi)
              · have : i = st.counter := by simpa [idsOf, shapeIdOf] using hi
                omega
            · intro s hs
              rw [heq] at hs
              rcases List.mem_append.mp hs with hs | hs
              · exact hc s hs
              · have : s = VShapeXml.vertexShape st.counter m px py w hgt t := by
                  simpa using hs
                rw [this]
                rfl
        obtain ⟨p1, p2, p3, p4, p5⟩ := ih st1 st' h t1.1 t1.2.1 t1.2.2
        refine ⟨p1, p2, p3, ?_, p5.trans hconn⟩
        rw [p4, hcnt, numVertexCells_cons_true c cs hv]
        omega

/-- When every vertex cell of the list has geometry, the vertex loop
appends shapes carrying exactly the ids `counter, counter+1, …`. -/
theorem vertexPass_ids (pw ph : ℚ) (cells : List XElem) :
    ∀ (st st' : ConvState),
      vertexPass pw ph st cells = .ok st' →
      (∀ c ∈ cells, isVertexCell c = true → hasGeomChild c = true) →
      idsOf st'.shapes = idsOf st.shapes ++ List.range' st.counter (numVertexCells cells) := by
  induction cells with
  | nil =>
    intro st st' h _
    simp only [vertexPass] at h
    cases h
    simp [numVertexCells]
  | cons c cs ih =>
    intro st st' h hall
    simp only [vertexPass] at h
    cases hstep : vertexStep pw ph st c with
    | error e => simp only [hstep] at h; cases h
    | ok st1 =>
      simp only [hstep] at h
      have hall' : ∀ x ∈ cs, isVertexCell x = true → hasGeomChild x = true :=
        fun x hx => hall x (List.mem_cons_of_mem c hx)
      rcases vertexStep_ok_cases pw ph st c st1 hstep with ⟨hv, rfl⟩ |
        ⟨hv, hcnt, _, _, hsh⟩
      · rw [ih st1 st' h hall', numVertexCells_cons_false c cs hv]
      · have hg : hasGeomChild c = true := hall c (List.mem_cons_self c cs) hv
        rcases hsh with ⟨hngeo, _⟩ | ⟨_, m, px, py, w, hgt, t, heq⟩
        · exact absurd hg (by simp [hngeo])
        · rw [ih st1 st' h hall', heq, idsOf_append, numVertexCells_cons_true c cs hv,
            hcnt, List.append_assoc]
          rw [List.range'_succ]
          simp [idsOf, shapeIdOf]

/-- The edge loop leaves `shape_map` untouched, advances the counter
by the number of resolving edges, and appends exactly the connector
shapes with ids `counter, counter+1, …`. -/
theorem edgePass_spec (cells : List XElem) :
    ∀ (st : ConvState),
      (edgePass st cells).shapeMap = st.shapeMap ∧
      (edgePass st cells).counter = st.counter + countResolved st.shapeMap cells ∧
      (edgePass st cells).shapes =
        st.shapes ++ (List.range' st.counter (countResolved st.shapeMap cells)).map connectorMk := by
  induction cells with
  | nil =>
    intro st
    refine ⟨rfl, ?_, ?_⟩
    · simp [edgePass, countResolved]
    · simp [edgePass, countResolved]
  | cons c cs ih =>
    intro st
    simp only [edgePass]
    cases hr : resolvedEdgeB st.shapeMap c with
    | false =>
      rw [edgeStep_not_resolved st c hr]
      obtain ⟨q1, q2, q3⟩ := ih st
      rw [countResolved_cons_false st.shapeMap c cs hr]
      exact ⟨q1, q2, q3⟩
    | true =>
      have hr2 := hr
      unfold resolvedEdgeB isEdgeCell at hr2
      simp only [Bool.and_eq_true, decide_eq_true_eq, Option.isSome_iff_exists] at hr2
      obtain ⟨⟨he, sv, hs⟩, tv, ht⟩ := hr2
      rw [edgeStep_resolved st c sv tv he hs ht]
      obtain ⟨q1, q2, q3⟩ := ih
        { st with
          counter := st.counter + 1,
          shapes := st.shapes ++ [VShapeXml.connectorShape st.counter 0 0 0 0],
          connects := st.connects ++
            [⟨st.counter, "BeginX", sv, "PinX"⟩, ⟨st.counter, "EndX", tv, "PinX"⟩] }
      refine ⟨q1, ?_, ?_⟩
      · rw [q2, countResolved_cons_true st.shapeMap c cs hr]
        show st.counter + 1 + countResolved st.shapeMap cs =
          st.counter + (countResolved st.shapeMap cs + 1)
        omega
      · rw [q3, countResolved_cons_true st.shapeMap c cs hr, List.append_assoc]
        show st.shapes ++
            ([connectorMk st.counter] ++
              (List.range' (st.counter + 1) (countResolved st.shapeMap cs)).map connectorMk) =
          st.shapes ++ (List.range' st.counter (countResolved st.shapeMap cs + 1)).map connectorMk
        rw [List.range'_succ]
        rfl

/-- Inversion of a successful conversion: the graph model was found,
both canvas dimensions parsed, the vertex loop succeeded, and the
output fields are those of the edge-loop final state. -/
theorem convertRoot_ok (root : XElem) (out : VsdxOutput)
    (h : convertRoot root = .ok out) :
    ∃ gm pw ph st1,
      findDesc root "mxGraphModel" = some gm ∧
      parseFloat? (getAttrD gm "pageWidth" "1920") = some pw ∧
      parseFloat? (getAttrD gm "pageHeight" "1080") = some ph ∧
      vertexPass pw ph initState (findAllDesc root "mxCell") = .ok st1 ∧
      out.shapes = (edgePass st1 (findAllDesc root "mxCell")).shapes ∧
      out.connects = (edgePass st1 (findAllDesc root "mxCell")).connects ∧
      out.shapeMap = (edgePass st1 (findAllDesc root "mxCell")).shapeMap ∧
      out.counter = (edgePass st1 (findAllDesc root "mxCell")).counter ∧
      out.pageWidthPx = pw ∧ out.pageHeightPx = ph := by
  unfold convertRoot at h
  cases hgm : findDesc root "mxGraphModel" with
  | none => simp only [hgm] at h; cases h
  | some gm =>
    simp only [hgm] at h
    cases hpw : parseFloat? (getAttrD gm "pageWidth" "1920") with
    | none => simp only [hpw] at h; cases h
    | some pw =>
    simp only [hpw] at h
    cases hph : parseFloat? (getAttrD gm "pageHeight" "1080") with
    | none => simp only [hph] at h; cases h
    | some ph =>
    simp only [hph] at h
    cases hvp : vertexPass pw ph initState (findAllDesc root "mxCell") with
    | error e => simp only [hvp] at h; cases h
    | ok st1 =>
    simp only [hvp] at h
    cases h
    exact ⟨gm, pw, ph, st1, rfl, hpw, hph, hvp, rfl, rfl, rfl, rfl, rfl, rfl⟩

/-- Claim C6: a style string containing `"ellipse"` is classified as
master `"2"` (Ellipse); one containing `"rhombus"` (and, the rules
being applied in order, not `"ellipse"`) as master `"3"` (Rhombus);
any other string, including the empty string, as master `"1"`
(Rectangle). -/
theorem C6_style_classification (s : String) :
    (containsSub s "ellipse" = true → get_master_id_from_style s = "2") ∧
    (containsSub s "rhombus" = true → containsSub s "ellipse" = false →
      get_master_id_from_style s = "3") ∧
    (containsSub s "ellipse" = false → containsSub s "rhombus" = false →
      get_master_id_from_style s = "1") := by
  unfold get_master_id_from_style
  by_cases he : s = ""
  · subst he
    refine ⟨fun h1 => ?_, fun h1 _ => ?_, fun _ _ => ?_⟩
    · exact absurd h1 (by decide)
    · exact absurd h1 (by decide)
    · simp
  · rw [if_neg he]
    refine ⟨fun h1 => ?_, fun h1 h2 => ?_, fun h1 h2 => ?_⟩
    · rw [if_pos h1]
    · rw [if_neg (by simp [h2]), if_pos h1]
    · rw [if_neg (by simp [h1]), if_neg (by simp [h2])]

/-- Witness for C6 at the styles `"xellipse;"`, `"a-rhombus"` and
`"plain"`. -/
theorem C6_style_classification_witness :
    get_master_id_from_style "xellipse;" = "2" ∧
    get_master_id_from_style "a-rhombus" = "3" ∧
    get_master_id_from_style "plain" = "1" :=
  ⟨(C6_style_classification "xellipse;").1 (by decide),
   (C6_style_classification "a-rhombus").2.1 (by decide) (by decide),
   (C6_style_classification "plain").2.2 (by decide) (by decide)⟩

/-- Claim C10: a style containing both `"ellipse"` and `"rhombus"` is
classified as Ellipse (`"2"`): the ellipse rule takes precedence, and
the result is `"3"` exactly for styles containing `"rhombus"` but not
`"ellipse"`. -/
theorem C10_ellipse_precedence (s : String) :
    (containsSub s "ellipse" = true → containsSub s "rhombus" = true →
      get_master_id_from_style s = "2") ∧
    (get_master_id_from_style s = "3" ↔
      (containsSub s "rhombus" = true ∧ containsSub s "ellipse" = false)) := by
  constructor
  · intro h1 _
    exact (C6_style_classification s).1 h1
  · constructor
    · intro h3
      unfold get_master_id_from_style at h3
      by_cases he : s = ""
      · rw [if_pos he] at h3
        exact absurd h3 (by decide)
      · rw [if_neg he] at h3
        by_cases h1 : containsSub s "ellipse" = true
        · rw [if_pos h1] at h3
          exact absurd h3 (by decide)
        · have h1f : containsSub s "ellipse" = false := by
            cases hcs : containsSub s "ellipse"
            · rfl
            · exact absurd hcs h1
          rw [if_neg (by simp [h1f])] at h3
          by_cases h2 : containsSub s "rhombus" = true
          · exact ⟨h2, h1f⟩
          · have h2f : containsSub s "rhombus" = false := by
              cases hcs : containsSub s "rhombus"
              · rfl
              · exact absurd hcs h2
            rw [if_neg (by simp [h2f])] at h3
            exact absurd h3 (by decide)
    · rintro ⟨h2, h1⟩
      exact (C6_style_classification s).2.1 h2 h1

/-- Witness for C10 at `"ellipse;rhombus"` (both substrings present:
result `"2"`) and `"xrhombus"` (only `"rhombus"`: result `"3"`). -/
theorem C10_ellipse_precedence_witness :
    get_master_id_from_style "ellipse;rhombus" = "2" ∧
    get_master_id_from_style "xrhombus" = "3" :=
  ⟨(C10_ellipse_precedence "ellipse;rhombus").1 (by decide) (by decide),
   (C10_ellipse_precedence "xrhombus").2.mpr ⟨by decide, by decide⟩⟩

/-- Claim C1, counterexample: converting `c1root` (one vertex `"a"`
with no geometry) emits no shape, yet consumes id 1 (the counter ends
at 2) and records `"a" ↦ 1` in `shape_map` — the vertex is *not*
skipped entirely as the claim states. -/
theorem C1_skip_counterexample :
    (convert_drawio_to_vsdx (.ok c1root)).map
        (fun o => (idsOf o.shapes, lookupMap o.shapeMap (some "a"), o.counter)) =
      .ok ([], some 1, 2) := rfl

/-- Claim C1, amended: a vertex cell with no geometry element yields
no Shape element, but an integer id *is* consumed for it and its
identifier *is* recorded in `shape_map` (the source registers the id
before the `geo is None` check). -/
theorem C1_geometryless_vertex (pw ph : ℚ) (st : ConvState) (cell : XElem)
    (hv : getAttr cell "vertex" = some "1")
    (hg : findChild cell "mxGeometry" = none) :
    vertexStep pw ph st cell =
      .ok { st with shapeMap := (getAttr cell "id", st.counter) :: st.shapeMap,
                    counter := st.counter + 1 } :=
  vertexStep_noGeo pw ph st cell hv hg

/-- Witness for the amended C1 at a concrete geometry-less vertex. -/
theorem C1_geometryless_vertex_witness :
    vertexStep 1920 1080 initState (XElem.mk "mxCell" [("id", "a"), ("vertex", "1")] []) =
      .ok ⟨[], [], [(some "a", 1)], 2⟩ :=
  C1_geometryless_vertex 1920 1080 initState
    (XElem.mk "mxCell" [("id", "a"), ("vertex", "1")] []) rfl rfl

/-- Claim C2, failing input: on `c2root` (vertex `a` with geometry,
vertex `b` without, edge `a → b`) the page is inconsistent — the shape
ids present are 1 and 3, while the second Connect element references
ToSheet 2, a shape id for which no Shape element exists. -/
theorem C2_dangling_connect_failure :
    (convert_drawio_to_vsdx (.ok c2root)).map
        (fun o => (connectsConsistent o, idsOf o.shapes, o.connects.map VConnect.toSheet)) =
      .ok (false, [1, 3], [1, 2]) := rfl

/-- Claim C4: for an edge cell, if either endpoint fails to resolve in
`shape_map` the state is unchanged (no shape, no connects, no id
consumed); if both resolve, exactly one connector shape is emitted with
Begin/End at the neutral 0,0 and exactly two Connect records, binding
the connector's begin point to the source shape's pin and its end
point to the target shape's pin. -/
theorem C4_edge_resolution (st : ConvState) (cell : XElem)
    (he : getAttr cell "edge" = some "1") :
    ((lookupMap st.shapeMap (getAttr cell "source") = none ∨
      lookupMap st.shapeMap (getAttr cell "target") = none) →
      edgeStep st cell = st) ∧
    (∀ sv tv,
      lookupMap st.shapeMap (getAttr cell "source") = some sv →
      lookupMap st.shapeMap (getAttr cell "target") = some tv →
      edgeStep st cell =
        { st with
          counter := st.counter + 1,
          shapes := st.shapes ++ [VShapeXml.connectorShape st.counter 0 0 0 0],
          connects := st.connects ++
            [⟨st.counter, "BeginX", sv, "PinX"⟩, ⟨st.counter, "EndX", tv, "PinX"⟩] }) := by
  constructor
  · intro hnone
    apply edgeStep_not_resolved
    unfold resolvedEdgeB
    rcases hnone with hn | hn <;> simp [hn]
  · intro sv tv hs ht
    exact edgeStep_resolved st cell sv tv he hs ht

/-- Witness for C4: a dangling edge (`source="zz"` unmapped) leaves
the state unchanged; the edge `a → b` over map `a↦1, b↦2` at counter 3
emits connector 3 and the two Connect records. -/
theorem C4_edge_resolution_witness :
    edgeStep c4st c4dangling = c4st ∧
    edgeStep c4st c4edge =
      ⟨[VShapeXml.connectorShape 3 0 0 0 0],
       [⟨3, "BeginX", 1, "PinX"⟩, ⟨3, "EndX", 2, "PinX"⟩],
       [(some "a", 1), (some "b", 2)], 4⟩ :=
  ⟨(C4_edge_resolution c4st c4dangling rfl).1 (Or.inl rfl),
   (C4_edge_resolution c4st c4edge rfl).2 1 2 rfl rfl⟩

/-- Claim C3, counterexample: on `c3root` (first vertex `b` without
geometry, second vertex `a` with geometry) the only emitted vertex
shape carries id 2 — the ids on emitted ShapeRecords do not start at 1
and are not gap-free, because the geometry-less vertex consumed id 1
without a ShapeRecord. -/
theorem C3_gap_counterexample :
    (convert_drawio_to_vsdx (.ok c3root)).map
        (fun o => (vertexIdsOf o.shapes, vertexIdsCanonical o)) =
      .ok ([2], false) := rfl

/-- Claim C3, amended: all ids on the page are strictly increasing in
emission order with no reuse; the connector ids of the edge pass are
consecutive starting exactly at `1 + (number of vertex cells)` — one
greater than the last id consumed in the vertex pass, which assigns
one id per vertex cell (the counter continues, it does not reset) —
and when every vertex cell has geometry the vertex-shape ids are
exactly `1, …, n` with no gaps. -/
theorem C3_id_assignment (root : XElem) (out : VsdxOutput)
    (h : convert_drawio_to_vsdx (.ok root) = .ok out) :
    List.Pairwise (· < ·) (idsOf out.shapes) ∧
    connectorIdsOf out.shapes =
      List.range' (1 + numVertexCells (findAllDesc root "mxCell"))
        (connectorIdsOf out.shapes).length ∧
    ((∀ c ∈ findAllDesc root "mxCell", isVertexCell c = true → hasGeomChild c = true) →
      vertexIdsOf out.shapes = List.range' 1 (numVertexCells (findAllDesc root "mxCell"))) := by
  obtain ⟨gm, pw, ph, st1, hgm, hpw, hph, hvp, hsh, _, _, _, _, _⟩ := convertRoot_ok root out h
  obtain ⟨p1, p2, p3, p4, _⟩ :=
    vertexPass_inv pw ph (findAllDesc root "mxCell") initState st1 hvp
      (by simp [idsOf, initState]) (by simp [idsOf, initState]) (by simp [initState])
  obtain ⟨_, _, q3⟩ := edgePass_spec (findAllDesc root "mxCell") st1
  rw [q3] at hsh
  have hcnt1 : st1.counter = 1 + numVertexCells (findAllDesc root "mxCell") := p4
  refine ⟨?_, ?_, ?_⟩
  · rw [hsh, idsOf_append, idsOf_connectorMk_map]
    refine List.pairwise_append.mpr ⟨p1, pairwiseLtRange _ _, ?_⟩
    intro a ha b hb
    exact lt_of_lt_of_le (p2 a ha) (memRange1_bounds hb).1
  · have hfc : st1.shapes.filter isConnectorShape = [] := by
      rw [List.filter_eq_nil_iff]
      intro s hs
      simp [p3 s hs]
    have hfm : ((List.range' st1.counter
          (countResolved st1.shapeMap (findAllDesc root "mxCell"))).map connectorMk).filter
            isConnectorShape =
        (List.range' st1.counter
          (countResolved st1.shapeMap (findAllDesc root "mxCell"))).map connectorMk := by
      rw [List.filter_eq_self]
      intro s hs
      rcases List.mem_map.mp hs with ⟨i, _, rfl⟩
      rfl
    have hmain : connectorIdsOf out.shapes =
        List.range' st1.counter (countResolved st1.shapeMap (findAllDesc root "mxCell")) := by
      unfold connectorIdsOf
      rw [hsh, List.filter_append, hfc, hfm, List.nil_append, idsOf_connectorMk_map]
    rw [hmain, List.length_range', hcnt1]
  · intro hgeom
    have hids := vertexPass_ids pw ph (findAllDesc root "mxCell") initState st1 hvp hgeom
    have hfv : st1.shapes.filter (fun s => !isConnectorShape s) = st1.shapes := by
      rw [List.filter_eq_self]
      intro s hs
      simp [p3 s hs]
    have hfvm : ((List.range' st1.counter
          (countResolved st1.shapeMap (findAllDesc root "mxCell"))).map connectorMk).filter
            (fun s => !isConnectorShape s) = [] := by
      rw [List.filter_eq_nil_iff]
      intro s hs
      rcases List.mem_map.mp hs with ⟨i, _, rfl⟩
      simp [connectorMk, isConnectorShape]
    unfold vertexIdsOf
    rw [hsh, List.filter_append, hfv, hfvm, List.append_nil, hids]
    rfl

/-- Witness for the amended C3 at `c3wRoot` (two geometry-bearing
vertices and one resolving edge): Pairwise-increasing ids, connector
ids starting right after the vertex ids, vertex ids `1, 2`. -/
theorem C3_id_assignment_witness :
    List.Pairwise (· < ·) (idsOf c3wOut.shapes) ∧
    connectorIdsOf c3wOut.shapes =
      List.range' (1 + numVertexCells (findAllDesc c3wRoot "mxCell"))
        (connectorIdsOf c3wOut.shapes).length ∧
    vertexIdsOf c3wOut.shapes =
      List.range' 1 (numVertexCells (findAllDesc c3wRoot "mxCell")) := by
  have h := C3_id_assignment c3wRoot c3wOut rfl
  exact ⟨h.1, h.2.1, h.2.2 (by decide)⟩

/-- Claim C5, counterexample: on canvas 1920×1080 with geometry
(0, 0, 120, 60), the emitted PinY equals 595/72 = 8.263888…, which is
*not* within 1e-6 of the claimed decimal 8.2639 (the distance is
1/90000 ≈ 1.11e-5). -/
theorem C5_tolerance_counterexample :
    (convert_drawio_to_vsdx (.ok c5root)).map vertexPinYs =
      .ok [(8.5 : ℚ) - (((0 + 60 / 2) / 1080) * (8.5 : ℚ))] ∧
    (8.5 : ℚ) - (((0 + 60 / 2) / 1080) * (8.5 : ℚ)) = 595 / 72 ∧
    ¬ (|(595 / 72 : ℚ) - 8.2639| ≤ 1 / 1000000) := by
  refine ⟨rfl, by norm_num, ?_⟩
  rw [abs_of_neg (by norm_num)]
  norm_num

/-- Claim C5, amended: the physical-unit formulas hold exactly —
`width = (w/pw)·11`, `height = (h/ph)·8.5`,
`pin_x = ((x + w/2)/pw)·11`, `pin_y = 8.5 − ((y + h/2)/ph)·8.5` — and
at canvas 1920×1080 with geometry (0, 0, 120, 60) the emitted values
are 11/32, 595/72, 11/16, 17/36, within 1e-4 (not 1e-6) of the quoted
decimals 0.34375, 8.2639, 0.6875, 0.4722. -/
theorem C5_coordinate_transform :
    (∀ (pw ph : ℚ) (st : ConvState) (c geo : XElem) (x y w h : ℚ),
      getAttr c "vertex" = some "1" →
      findChild c "mxGeometry" = some geo →
      parseFloat? (getAttrD geo "width" "120") = some w →
      parseFloat? (getAttrD geo "height" "60") = some h →
      parseFloat? (getAttrD geo "x" "0") = some x →
      parseFloat? (getAttrD geo "y" "0") = some y →
      0 < pw → 0 < ph →
      vertexStep pw ph st c =
        .ok { st with
              shapes := st.shapes ++
                [VShapeXml.vertexShape st.counter
                  (get_master_id_from_style (getAttrD c "style" ""))
                  (((x + w / 2) / pw) * 11)
                  ((8.5 : ℚ) - (((y + h / 2) / ph) * (8.5 : ℚ)))
                  ((w / pw) * 11) ((h / ph) * (8.5 : ℚ))
                  (escapePy (getAttrD c "value" ""))],
              shapeMap := (getAttr c "id", st.counter) :: st.shapeMap,
              counter := st.counter + 1 }) ∧
    ((convert_drawio_to_vsdx (.ok c5root)).map vertexQuads =
      .ok [((((0 : ℚ) + 120 / 2) / 1920) * 11,
            (8.5 : ℚ) - (((0 + 60 / 2) / 1080) * (8.5 : ℚ)),
            ((120 : ℚ) / 1920) * 11, ((60 : ℚ) / 1080) * (8.5 : ℚ))] ∧
     (((0 : ℚ) + 120 / 2) / 1920) * 11 = 11 / 32 ∧
     (8.5 : ℚ) - (((0 + 60 / 2) / 1080) * (8.5 : ℚ)) = 595 / 72 ∧
     ((120 : ℚ) / 1920) * 11 = 11 / 16 ∧
     ((60 : ℚ) / 1080) * (8.5 : ℚ) = 17 / 36 ∧
     |(11 / 32 : ℚ) - 0.34375| ≤ 1 / 10000 ∧
     |(595 / 72 : ℚ) - 8.2639| ≤ 1 / 10000 ∧
     |(11 / 16 : ℚ) - 0.6875| ≤ 1 / 10000 ∧
     |(17 / 36 : ℚ) - 0.4722| ≤ 1 / 10000) := by
  constructor
  · intro pw ph st c geo x y w h hv hg hw hh hx hy hpw hph
    exact vertexStep_geo pw ph st c geo x y w h hv hg hw hh hx hy hpw.ne' hph.ne'
  · refine ⟨rfl, by norm_num, by norm_num, by norm_num, by norm_num, ?_, ?_, ?_, ?_⟩
    · norm_num
    · rw [abs_of_neg (by norm_num)]
      norm_num
    · norm_num
    · rw [abs_of_pos (by norm_num)]
      norm_num

/-- Witness for the amended C5 at the concrete cell of `c5root`. -/
theorem C5_coordinate_transform_witness :
    vertexStep 1920 1080 initState c5cell =
      .ok ⟨[VShapeXml.vertexShape 1 "1" ((((0 : ℚ) + 120 / 2) / 1920) * 11)
              ((8.5 : ℚ) - (((0 + 60 / 2) / 1080) * (8.5 : ℚ)))
              (((120 : ℚ) / 1920) * 11) (((60 : ℚ) / 1080) * (8.5 : ℚ)) ""],
           [], [(some "a", 1)], 2⟩ :=
  C5_coordinate_transform.1 1920 1080 initState c5cell c5geo 0 0 120 60
    rfl rfl rfl rfl rfl rfl (by norm_num) (by norm_num)

/-- Claim C7, counterexample: a present but non-numeric `pageWidth`
(`"abc"`) does not fall back to the default — `float` raises an
uncaught ValueError and the conversion fails instead of succeeding. -/
theorem C7_nonnumeric_counterexample :
    convert_drawio_to_vsdx (.ok c7root) = .error PyErr.valueError := rfl

/-- Claim C7, amended: on a successful conversion the canvas
dimensions are read off the `mxGraphModel` element, with 1920×1080
used when the attribute is absent; a present attribute must itself
parse (so a present non-numeric value can never yield the default —
the conversion fails with an uncaught ValueError instead). -/
theorem C7_canvas_dimensions (root gm : XElem) (out : VsdxOutput)
    (hgm : findDesc root "mxGraphModel" = some gm)
    (hok : convert_drawio_to_vsdx (.ok root) = .ok out) :
    (getAttr gm "pageWidth" = none → out.pageWidthPx = 1920) ∧
    (getAttr gm "pageHeight" = none → out.pageHeightPx = 1080) ∧
    (∀ s, getAttr gm "pageWidth" = some s → parseFloat? s = some out.pageWidthPx) ∧
    (∀ s, getAttr gm "pageHeight" = some s → parseFloat? s = some out.pageHeightPx) := by
  obtain ⟨gm', pw, ph, st1, hgm', hpw, hph, _, _, _, _, _, hw, hh⟩ := convertRoot_ok root out hok
  rw [hgm] at hgm'
  injection hgm' with hgm2
  subst hgm2
  refine ⟨?_, ?_, ?_, ?_⟩
  · intro hnone
    have h2 : getAttrD gm "pageWidth" "1920" = "1920" := by
      unfold getAttrD
      rw [hnone]
      rfl
    have h19 : parseFloat? "1920" = some (1920 : ℚ) := rfl
    rw [h2, h19] at hpw
    injection hpw with hpw2
    rw [hw, ← hpw2]
  · intro hnone
    have h2 : getAttrD gm "pageHeight" "1080" = "1080" := by
      unfold getAttrD
      rw [hnone]
      rfl
    have h10 : parseFloat? "1080" = some (1080 : ℚ) := rfl
    rw [h2, h10] at hph
    injection hph with hph2
    rw [hh, ← hph2]
  · intro s hs
    have h2 : getAttrD gm "pageWidth" "1920" = s := by
      unfold getAttrD
      rw [hs]
      rfl
    rw [h2] at hpw
    rw [hw]
    exact hpw
  · intro s hs
    have h2 : getAttrD gm "pageHeight" "1080" = s := by
      unfold getAttrD
      rw [hs]
      rfl
    rw [h2] at hph
    rw [hh]
    exact hph

/-- Witness for the amended C7: absent attributes give 1920×1080
(`c7wRootA`); the declared `"100.5"`/`"200"` are the parsed
dimensions of the run (`c7wRootB`). -/
theorem C7_canvas_dimensions_witness :
    (c7wOutA.pageWidthPx = 1920 ∧ c7wOutA.pageHeightPx = 1080) ∧
    (parseFloat? "100.5" = some c7wOutB.pageWidthPx ∧
     parseFloat? "200" = some c7wOutB.pageHeightPx) := by
  have hA := C7_canvas_dimensions c7wRootA
    (XElem.mk "mxGraphModel" [] [XElem.mk "root" [] []]) c7wOutA rfl rfl
  have hB := C7_canvas_dimensions c7wRootB
    (XElem.mk "mxGraphModel" [("pageWidth", "100.5"), ("pageHeight", "200")]
      [XElem.mk "root" [] []]) c7wOutB rfl rfl
  exact ⟨⟨hA.1 rfl, hA.2.1 rfl⟩, hB.2.2.1 "100.5" rfl, hB.2.2.2 "200" rfl⟩

/-- Claim C8, counterexample: a well-formed document with no
graph-model element fails with an uncaught AttributeError (from
`None.get`), not with a ParseError as the claim states. -/
theorem C8_missing_model_counterexample :
    convert_drawio_to_vsdx (.ok c8root) = .error PyErr.attributeError ∧
    isParseFailure (convert_drawio_to_vsdx (.ok c8root)) = false := ⟨rfl, rfl⟩

/-- Claim C8, amended: input that is not well-formed markup yields the
caught ParseError (message reported, no package); a well-formed input
whose root graph-model element is absent also produces no package, but
through an uncaught AttributeError rather than a ParseError. -/
theorem C8_parse_failure :
    (∀ msg, convert_drawio_to_vsdx (.error msg) = .error (.parseError msg)) ∧
    (∀ root, findDesc root "mxGraphModel" = none →
      convert_drawio_to_vsdx (.ok root) = .error .attributeError) := by
  constructor
  · intro msg
    rfl
  · intro root hnone
    show convertRoot root = .error .attributeError
    unfold convertRoot
    simp only [hnone]

/-- Witness for the amended C8 at a malformed-input message and at a
concrete document lacking `mxGraphModel`. -/
theorem C8_parse_failure_witness :
    convert_drawio_to_vsdx (.error "no element found: line 1, column 10") =
      .error (.parseError "no element found: line 1, column 10") ∧
    convert_drawio_to_vsdx (.ok (XElem.mk "mxfile" [] [])) = .error .attributeError :=
  ⟨C8_parse_failure.1 "no element found: line 1, column 10",
   C8_parse_failure.2 (XElem.mk "mxfile" [] []) rfl⟩
